import Mathlib

/-!
# TmuxCoder shared-state coordinator: a shallow embedding

This file embeds the shared-application-state data model
(`internal/types/state.go`), the coordinator update path
(`PanelSyncManager.UpdateWithVersionCheck` in `internal/state`), and the
persistence load path (`internal/persistence/file_manager.go`) as Lean
definitions, and proves or refutes the frozen claims about them.

Modelling conventions:
* `time.Time` values are modelled as `Nat` ticks; every call of `time.Now()`
  within one operation is modelled by a single `now` parameter.
* Go `int64` / `int` fields are modelled as `Int` (no claim concerns
  overflow behaviour).
* The external SDK type `opencode.PartUnion` is opaque to this repository;
  message parts are modelled as opaque `String` tokens.
* Go maps of strings are modelled as association lists.
* The conflict resolver (an interface whose implementations live outside the
  modelled code) is a parameter: a function returning `some finalState` when
  it reports success and `none` when it is absent, returns `nil`, or fails.
-/

namespace TmuxCoder

/-- `StateVersion` from `internal/types/state.go`: optimistic-concurrency
version record. -/
structure StateVersion where
  version : Int
  timestamp : Nat
  source : String
deriving Repr, DecidableEq

/-- `SessionInfo` from `internal/types/state.go`. -/
structure SessionInfo where
  id : String
  title : String
  createdAt : Nat
  updatedAt : Nat
  messageCount : Int
  isActive : Bool
deriving Repr, DecidableEq

/-- `MessageInfo` from `internal/types/state.go`; `parts` entries are opaque
stand-ins for the external `opencode.PartUnion` values. -/
structure MessageInfo where
  id : String
  sessionID : String
  type : String
  content : String
  timestamp : Nat
  status : String
  parts : List String
deriving Repr, DecidableEq

/-- `InputState` from `internal/types/state.go`. -/
structure InputState where
  buffer : String
  cursorPosition : Int
  selectionStart : Int
  selectionEnd : Int
  mode : String
  history : List String
  historyIndex : Int
deriving Repr, DecidableEq

/-- `SharedApplicationState` from `internal/types/state.go` (the runtime
mutex and subscriber map are not part of the serialized value and are
omitted). -/
structure SharedApplicationState where
  version : StateVersion
  sessions : List SessionInfo
  currentSessionID : String
  messages : List MessageInfo
  currentMessage : Option MessageInfo
  input : InputState
  theme : String
  provider : String
  model : String
  agent : String
  agentModel : List (String × String)
  lastUpdate : Nat
  updateCount : Int
deriving Repr, DecidableEq

/-- `NewSharedApplicationState` from `internal/types/state.go`. -/
def NewSharedApplicationState (now : Nat) : SharedApplicationState where
  version := { version := 1, timestamp := now, source := "init" }
  sessions := []
  currentSessionID := ""
  messages := []
  currentMessage := none
  input :=
    { buffer := ""
      cursorPosition := 0
      selectionStart := 0
      selectionEnd := 0
      mode := "normal"
      history := []
      historyIndex := -1 }
  theme := "opencode"
  provider := ""
  model := ""
  agent := ""
  agentModel := []
  lastUpdate := now
  updateCount := 0

namespace SharedApplicationState

/-- The version/metadata bump shared by the mutating helpers of
`internal/types/state.go` (`Version.Version++`, `Version.Timestamp = now`,
`LastUpdate = now`, `UpdateCount++`; `Version.Source` is left unchanged by
these helpers). -/
def bumpMeta (s : SharedApplicationState) (now : Nat) : SharedApplicationState :=
  { s with
      version := { s.version with version := s.version.version + 1, timestamp := now }
      lastUpdate := now
      updateCount := s.updateCount + 1 }

/-- The loop body of `AddSession`: replace the first session whose id equals
`session.ID` and stop; `none` when no session matches. -/
def replaceFirstSession (sessions : List SessionInfo) (session : SessionInfo) :
    Option (List SessionInfo) :=
  match sessions with
  | [] => none
  | s :: rest =>
    if s.id = session.id then some (session :: rest)
    else (replaceFirstSession rest session).map (fun l => s :: l)

/-- `SharedApplicationState.AddSession` from `internal/types/state.go`:
update the first existing session with the same id, otherwise append; either
way bump the version metadata. -/
def AddSession (s : SharedApplicationState) (session : SessionInfo) (now : Nat) :
    SharedApplicationState :=
  match replaceFirstSession s.sessions session with
  | some updated => bumpMeta { s with sessions := updated } now
  | none => bumpMeta { s with sessions := s.sessions ++ [session] } now

/-- The loop body of `RemoveSession`: remove the first session whose id
equals `sessionID`; `none` when no session matches. -/
def removeFirstSession (sessions : List SessionInfo) (sessionID : String) :
    Option (List SessionInfo) :=
  match sessions with
  | [] => none
  | s :: rest =>
    if s.id = sessionID then some rest
    else (removeFirstSession rest sessionID).map (fun l => s :: l)

/-- `SharedApplicationState.RemoveSession` from `internal/types/state.go`:
remove the first session with the given id (clearing the current-session id
when it pointed at it) and bump the metadata, returning `true`; when no
session matches, return `false` and leave the state untouched. -/
def RemoveSession (s : SharedApplicationState) (sessionID : String) (now : Nat) :
    SharedApplicationState × Bool :=
  match removeFirstSession s.sessions sessionID with
  | some remaining =>
    let cleared := if s.currentSessionID = sessionID then "" else s.currentSessionID
    (bumpMeta { s with sessions := remaining, currentSessionID := cleared } now, true)
  | none => (s, false)

/-- `SharedApplicationState.SetCurrentSession` from
`internal/types/state.go`: when some session has the given id, set the
current-session id to it, bump the metadata and return `true`; otherwise
return `false` and leave the state untouched. -/
def SetCurrentSession (s : SharedApplicationState) (sessionID : String) (now : Nat) :
    SharedApplicationState × Bool :=
  if s.sessions.any (fun sess => sess.id = sessionID) then
    (bumpMeta { s with currentSessionID := sessionID } now, true)
  else (s, false)

/-- `SharedApplicationState.GetSessionByID` from `internal/types/state.go`:
the first session with the given id. -/
def GetSessionByID (s : SharedApplicationState) (sessionID : String) :
    Option SessionInfo :=
  s.sessions.find? (fun sess => sess.id = sessionID)

end SharedApplicationState

/-! ## Update payloads (`internal/types/updates.go`)

The Go `StateUpdate` carries a string discriminant `Type` together with an
untyped payload; a well-formed update's payload decodes into the struct the
discriminant names.  The pair is embedded as a sum type, one constructor per
update type handled by `UpdateWithVersionCheck` (decode failures of
ill-formed payloads are outside the sum). -/

/-- Tagged update payloads: the `Type` discriminant together with its decoded
payload struct. `sessionUpdate` (type `session_updated`) has no case in
`UpdateWithVersionCheck` and falls through to the default branch. -/
inductive UpdatePayload where
  | sessionAdd (session : SessionInfo)
  | sessionChange (sessionID : String)
  | sessionDelete (sessionID : String)
  | sessionUpdate (sessionID : String) (title : String) (isActive : Bool)
  | messageAdd (message : MessageInfo)
  | messageUpdate (messageID : String) (content : String) (status : String)
      (parts : Option (List String))
  | messageDelete (messageID : String)
  | messagesClear (sessionID : String)
  | inputUpdate (buffer : String) (cursorPosition : Int) (selectionStart : Int)
      (selectionEnd : Int) (mode : String)
  | cursorMove (position : Int) (selectionStart : Int) (selectionEnd : Int)
  | themeChange (theme : String)
  | modelChange (provider : String) (model : String)
  | agentChange (agent : String)
  | uiAction (action : String)
deriving Repr, DecidableEq

/-- `StateUpdate` from `internal/types/updates.go`. -/
structure StateUpdate where
  id : String
  payload : UpdatePayload
  expectedVersion : Int
  sourcePanel : String
  timestamp : Nat
deriving Repr, DecidableEq

/-- `StateEventType` from `internal/types/state.go`. -/
inductive StateEventType where
  | sessionChanged
  | sessionAdded
  | sessionDeleted
  | sessionUpdated
  | messageAdded
  | messageUpdated
  | messageDeleted
  | messagesCleared
  | inputUpdated
  | cursorMoved
  | themeChanged
  | modelChanged
  | agentChanged
  | uiActionTriggered
  | stateSync
  | panelConnected
  | panelDisconnected
deriving Repr, DecidableEq

/-- `StateEvent` from `internal/types/state.go`; `Data` carries the update's
payload. -/
structure StateEvent where
  id : String
  type : StateEventType
  data : UpdatePayload
  version : Int
  sourcePanel : String
  timestamp : Nat
deriving Repr, DecidableEq

/-- `generateEventID` (event bus source): a timestamp-derived identifier. -/
def generateEventID (now : Nat) : String :=
  toString now

/-- `CreateEventFromUpdate` (event bus source): map the update type to its
event type and package the payload with the post-update version. -/
def CreateEventFromUpdate (update : StateUpdate) (version : Int) (now : Nat) :
    StateEvent :=
  let eventType : StateEventType :=
    match update.payload with
    | .sessionChange _ => .sessionChanged
    | .sessionAdd _ => .sessionAdded
    | .sessionDelete _ => .sessionDeleted
    | .sessionUpdate _ _ _ => .sessionUpdated
    | .messageAdd _ => .messageAdded
    | .messageUpdate _ _ _ _ => .messageUpdated
    | .messageDelete _ => .messageDeleted
    | .messagesClear _ => .messagesCleared
    | .inputUpdate _ _ _ _ _ => .inputUpdated
    | .cursorMove _ _ _ => .cursorMoved
    | .themeChange _ => .themeChanged
    | .modelChange _ _ => .modelChanged
    | .agentChange _ => .agentChanged
    | .uiAction _ => .uiActionTriggered
  { id := generateEventID now
    type := eventType
    data := update.payload
    version := version
    sourcePanel := update.sourcePanel
    timestamp := now }

/-! ## The coordinator update path (`PanelSyncManager.UpdateWithVersionCheck`) -/

/-- MessageAdded loop: increment the message count of the first session whose
id matches, then stop. -/
def incFirstSessionCount (sessions : List SessionInfo) (sessionID : String) :
    List SessionInfo :=
  match sessions with
  | [] => []
  | s :: rest =>
    if s.id = sessionID then { s with messageCount := s.messageCount + 1 } :: rest
    else s :: incFirstSessionCount rest sessionID

/-- MessageDeleted inner loop: decrement the message count of the first
session whose id matches and whose count is positive, then stop. -/
def decFirstSessionCount (sessions : List SessionInfo) (sessionID : String) :
    List SessionInfo :=
  match sessions with
  | [] => []
  | s :: rest =>
    if s.id = sessionID ∧ s.messageCount > 0 then
      { s with messageCount := s.messageCount - 1 } :: rest
    else s :: decFirstSessionCount rest sessionID

/-- MessagesCleared loop: set the message count of the first session whose id
matches to zero, then stop. -/
def zeroFirstSessionCount (sessions : List SessionInfo) (sessionID : String) :
    List SessionInfo :=
  match sessions with
  | [] => []
  | s :: rest =>
    if s.id = sessionID then { s with messageCount := 0 } :: rest
    else s :: zeroFirstSessionCount rest sessionID

/-- MessageUpdated per-message mutation: empty `content` and `status` and an
absent `parts` list each leave the corresponding field untouched. -/
def applyMessageUpdate (m : MessageInfo) (content status : String)
    (parts : Option (List String)) : MessageInfo :=
  { m with
      content := if content ≠ "" then content else m.content
      status := if status ≠ "" then status else m.status
      parts := match parts with | some p => p | none => m.parts }

/-- MessageUpdated loop: rewrite the first message whose id matches, then
stop. -/
def updateFirstMessage (messages : List MessageInfo) (messageID : String)
    (content status : String) (parts : Option (List String)) : List MessageInfo :=
  match messages with
  | [] => []
  | m :: rest =>
    if m.id = messageID then applyMessageUpdate m content status parts :: rest
    else m :: updateFirstMessage rest messageID content status parts

/-- MessageDeleted loop: remove the first message whose id matches (adjusting
the owning session's count), then stop. -/
def deleteFirstMessage (s : SharedApplicationState) (messageID : String) :
    SharedApplicationState :=
  match s.messages.find? (fun m => m.id = messageID) with
  | some m =>
    { s with
        sessions := decFirstSessionCount s.sessions m.sessionID
        messages := removeFirstMessage s.messages messageID }
  | none => s
where
  /-- remove the first message with the given id. -/
  removeFirstMessage : List MessageInfo → String → List MessageInfo
    | [], _ => []
    | m :: rest, mid =>
      if m.id = mid then rest else m :: removeFirstMessage rest mid

/-- The `switch update.Type` body of `UpdateWithVersionCheck`: the typed
payload applied to the state (version bump and event creation happen after
this, in `UpdateWithVersionCheck` itself). -/
def applyPayload (s : SharedApplicationState) (p : UpdatePayload) (now : Nat) :
    SharedApplicationState :=
  match p with
  | .sessionAdd session => s.AddSession session now
  | .sessionChange sessionID => (s.SetCurrentSession sessionID now).1
  | .sessionDelete sessionID => (s.RemoveSession sessionID now).1
  | .sessionUpdate _ _ _ => s
  | .messageAdd message =>
    { s with
        messages := s.messages ++ [message]
        sessions := incFirstSessionCount s.sessions message.sessionID
        currentMessage := some message }
  | .messageUpdate messageID content status parts =>
    { s with messages := updateFirstMessage s.messages messageID content status parts }
  | .messageDelete messageID => deleteFirstMessage s messageID
  | .messagesClear sessionID =>
    { s with
        messages := s.messages.filter (fun m => m.sessionID ≠ sessionID)
        sessions := zeroFirstSessionCount s.sessions sessionID }
  | .inputUpdate buffer cursorPosition selectionStart selectionEnd mode =>
    { s with
        input :=
          { s.input with
              buffer := buffer
              cursorPosition := cursorPosition
              selectionStart := selectionStart
              selectionEnd := selectionEnd
              mode := if mode ≠ "" then mode else s.input.mode } }
  | .cursorMove position selectionStart selectionEnd =>
    { s with
        input :=
          { s.input with
              cursorPosition := position
              selectionStart := selectionStart
              selectionEnd := selectionEnd } }
  | .themeChange theme => { s with theme := theme }
  | .modelChange provider model => { s with provider := provider, model := model }
  | .agentChange agent => { s with agent := agent }
  | .uiAction _ => s

/-- The resolver interface as seen from `UpdateWithVersionCheck`: given the
manager's state and the conflicting update, a successful resolution yields
the manager's resulting state; `none` covers a `nil` result and an
unsuccessful one. -/
def ConflictResolver : Type :=
  SharedApplicationState → StateUpdate → Option SharedApplicationState

/-- The error values `UpdateWithVersionCheck` can return on the conflict
path (decode errors of ill-formed payloads are outside the embedding). -/
inductive UpdateError where
  | versionConflict (expected current : Int)
deriving Repr, DecidableEq

/-- The observable outcome of one `UpdateWithVersionCheck` call: the
manager's state after the call, the event broadcast by the call (if any),
and the returned error (if any). -/
structure UpdateOutcome where
  state : SharedApplicationState
  broadcast : Option StateEvent
  error : Option UpdateError
deriving Repr, DecidableEq

/-- `PanelSyncManager.UpdateWithVersionCheck`: optimistic version check, the
conflict path through the resolver, the typed payload application, the final
version/metadata bump stamping the update's source panel, and the event
broadcast. -/
def UpdateWithVersionCheck (resolver : Option ConflictResolver)
    (s : SharedApplicationState) (update : StateUpdate) (now : Nat) :
    UpdateOutcome :=
  if s.version.version ≠ update.expectedVersion then
    match resolver with
    | some r =>
      match r s update with
      | some resolved => { state := resolved, broadcast := none, error := none }
      | none =>
        { state := s
          broadcast := none
          error := some (.versionConflict update.expectedVersion s.version.version) }
    | none =>
      { state := s
        broadcast := none
        error := some (.versionConflict update.expectedVersion s.version.version) }
  else
    let applied := applyPayload s update.payload now
    let bumped :=
      { applied with
          version :=
            { version := applied.version.version + 1
              timestamp := now
              source := update.sourcePanel }
          lastUpdate := now
          updateCount := applied.updateCount + 1 }
    { state := bumped
      broadcast := some (CreateEventFromUpdate update bumped.version.version now)
      error := none }

/-- An update is accepted by `UpdateWithVersionCheck` exactly when the
optimistic version check passes. -/
def accepted (s : SharedApplicationState) (update : StateUpdate) : Prop :=
  s.version.version = update.expectedVersion

instance (s : SharedApplicationState) (update : StateUpdate) :
    Decidable (accepted s update) := by
  unfold accepted
  infer_instance

/-! ## Persistence load path (`internal/persistence/file_manager.go`)

A file on disk is abstracted by the outcomes of the two decoding steps the
load path performs on it: decoding the metadata header document and decoding
the state document.  A missing file is `Option.none` at the filesystem
level. -/

/-- `StateMetadata` from `internal/persistence/file_manager.go`. -/
structure StateMetadata where
  version : String
  timestamp : Nat
  checksum : String
deriving Repr, DecidableEq

/-- A state file as the load path observes it: the decode outcome of its
metadata header and the decode outcome of its state document (`none` =
decode error). -/
structure DiskFile where
  header : Option StateMetadata
  decoded : Option SharedApplicationState
deriving Repr, DecidableEq

/-- `ValidationError` from `internal/persistence/file_manager.go`. -/
structure ValidationError where
  field : String
  message : String
deriving Repr, DecidableEq

/-- The error outcomes of `LoadStateAtomic` (lock-acquisition failures are
outside the embedding). -/
inductive LoadError where
  | fileNotFound
  | validationFailed (e : ValidationError)
  | backupNotFound
deriving Repr, DecidableEq

instance {ε α : Type} [DecidableEq ε] [DecidableEq α] :
    DecidableEq (Except ε α) := fun a b =>
  match a, b with
  | .ok x, .ok y => decidable_of_iff (x = y) (by simp)
  | .error x, .error y => decidable_of_iff (x = y) (by simp)
  | .ok _, .error _ => isFalse (by simp)
  | .error _, .ok _ => isFalse (by simp)

/-- The session loop of `FileManager.validateState`: reject empty and
duplicate session ids, accumulating the ids seen so far. -/
def validateSessions (sessions : List SessionInfo) (seen : List String) :
    Except ValidationError (List String) :=
  match sessions with
  | [] => .ok seen
  | s :: rest =>
    if s.id = "" then .error { field := "session.id", message := "cannot be empty" }
    else if seen.contains s.id then
      .error { field := "session.id", message := "duplicate session ID" }
    else validateSessions rest (s.id :: seen)

/-- `FileManager.validateState`: positive version, non-zero timestamp,
non-empty unique session ids, and a current-session id that (when set)
references an existing session.  Returns the first violation found. -/
def validateState (s : SharedApplicationState) : Option ValidationError :=
  if s.version.version ≤ 0 then some { field := "version", message := "must be positive" }
  else if s.version.timestamp = 0 then
    some { field := "timestamp", message := "cannot be zero" }
  else
    match validateSessions s.sessions [] with
    | .error e => some e
    | .ok ids =>
      if s.currentSessionID ≠ "" ∧ ¬ ids.contains s.currentSessionID then
        some { field := "current_session_id", message := "references non-existent session" }
      else none

/-- `FileManager.verifyFileIntegrity`: the metadata header must decode and
carry a non-empty format version. -/
def verifyFileIntegrity (f : DiskFile) : Bool :=
  match f.header with
  | none => false
  | some md => md.version ≠ ""

/-- `FileManager.loadFromBackup`: walk the backup chain (the unsuffixed
backup first, then `.1` … `.N`), skipping missing files, files whose state
document fails to decode, and files whose decoded state fails validation;
return the first state that decodes and validates.  Header decode errors
are ignored on this path. -/
def loadFromBackup (backups : List (Option DiskFile)) :
    Except LoadError SharedApplicationState :=
  match backups with
  | [] => .error .backupNotFound
  | none :: rest => loadFromBackup rest
  | some f :: rest =>
    match f.decoded with
    | none => loadFromBackup rest
    | some st =>
      match validateState st with
      | some _ => loadFromBackup rest
      | none => .ok st

/-- `FileManager.LoadStateAtomic`: fail when the state file is missing; fall
back to the backup chain when header verification or the state decode fails;
return a validation error when the decoded state fails validation; otherwise
return the decoded state. -/
def LoadStateAtomic (mainFile : Option DiskFile) (backups : List (Option DiskFile)) :
    Except LoadError SharedApplicationState :=
  match mainFile with
  | none => .error .fileNotFound
  | some f =>
    if verifyFileIntegrity f = false then loadFromBackup backups
    else
      match f.decoded with
      | none => loadFromBackup backups
      | some st =>
        match validateState st with
        | some e => .error (.validationFailed e)
        | none => .ok st

/-! ## Derived notions used by the claims -/

/-- Everything in the state other than the version record, the last-update
timestamp and the update counter: the frame the claims about version-only
effects quantify over. -/
def stateContent (s : SharedApplicationState) :
    List SessionInfo × String × List MessageInfo × Option MessageInfo ×
      InputState × String × String × String × String × List (String × String) :=
  (s.sessions, s.currentSessionID, s.messages, s.currentMessage, s.input,
   s.theme, s.provider, s.model, s.agent, s.agentModel)

/-- The number of message entries carrying the given session id. -/
def countMessages (messages : List MessageInfo) (sessionID : String) : Int :=
  ((messages.filter (fun m => m.sessionID = sessionID)).length : Int)

/-- The extra version increment an accepted update incurs inside the state
helper it routes through (`AddSession`, `SetCurrentSession`,
`RemoveSession`), on top of the bump `UpdateWithVersionCheck` itself
performs. -/
def innerVersionBump (s : SharedApplicationState) (p : UpdatePayload) : Int :=
  match p with
  | .sessionAdd _ => 1
  | .sessionChange sessionID =>
    if s.sessions.any (fun sess => sess.id = sessionID) then 1 else 0
  | .sessionDelete sessionID =>
    if (SharedApplicationState.removeFirstSession s.sessions sessionID).isSome then 1
    else 0
  | _ => 0

/-- The backup the fallback walk should return: the first entry of the chain
that is present, decodes, and validates. -/
def firstValidBackup (backups : List (Option DiskFile)) :
    Option SharedApplicationState :=
  backups.findSome? fun entry =>
    entry.bind fun f =>
      f.decoded.bind fun st =>
        if validateState st = none then some st else none

/-! ## Concrete fixtures used by witnesses and counterexamples -/

/-- A session record used by concrete scenarios. -/
def sessionAlpha : SessionInfo :=
  { id := "a", title := "Alpha", createdAt := 0, updatedAt := 0
    messageCount := 0, isActive := false }

/-- A replacement record with the same id as `sessionAlpha`. -/
def sessionAlphaV2 : SessionInfo :=
  { id := "a", title := "Alpha edited", createdAt := 0, updatedAt := 4
    messageCount := 0, isActive := true }

/-- A session record with id `s1`. -/
def sessionS1 : SessionInfo :=
  { id := "s1", title := "First", createdAt := 0, updatedAt := 0
    messageCount := 0, isActive := false }

/-- A message carrying session id `s1`. -/
def messageM1 : MessageInfo :=
  { id := "m1", sessionID := "s1", type := "user", content := "hi"
    timestamp := 0, status := "pending", parts := [] }

/-- `SessionAdded{sessionAlpha}` against the initial version. -/
def addAlpha : StateUpdate :=
  { id := "u1", payload := .sessionAdd sessionAlpha, expectedVersion := 1
    sourcePanel := "sessions", timestamp := 0 }

/-- The state after accepting `addAlpha` from the initial state. -/
def stateAlpha : SharedApplicationState :=
  (UpdateWithVersionCheck none (NewSharedApplicationState 0) addAlpha 1).state

/-- `SessionChanged{"a"}` against `stateAlpha`. -/
def selectAlpha : StateUpdate :=
  { id := "u2", payload := .sessionChange "a", expectedVersion := 3
    sourcePanel := "sessions", timestamp := 2 }

/-- The state after also accepting `selectAlpha`. -/
def stateAlphaSelected : SharedApplicationState :=
  (UpdateWithVersionCheck none stateAlpha selectAlpha 2).state

/-- `SessionChanged{"b"}` against `stateAlphaSelected`; no session has
id `b`. -/
def selectBeta : StateUpdate :=
  { id := "u3", payload := .sessionChange "b", expectedVersion := 5
    sourcePanel := "sessions", timestamp := 3 }

/-- `MessageAdded{messageM1}` against the initial (sessionless) state. -/
def addM1 : StateUpdate :=
  { id := "u4", payload := .messageAdd messageM1, expectedVersion := 1
    sourcePanel := "messages", timestamp := 0 }

/-- The state after accepting `addM1` from the initial state. -/
def stateM1 : SharedApplicationState :=
  (UpdateWithVersionCheck none (NewSharedApplicationState 0) addM1 1).state

/-- `SessionAdded{sessionS1}` against the initial version. -/
def addS1 : StateUpdate :=
  { id := "u5", payload := .sessionAdd sessionS1, expectedVersion := 1
    sourcePanel := "sessions", timestamp := 0 }

/-- The state after accepting `addS1` from the initial state. -/
def stateS1 : SharedApplicationState :=
  (UpdateWithVersionCheck none (NewSharedApplicationState 0) addS1 1).state

/-- `MessageAdded{messageM1}` against `stateS1`. -/
def addM1toS1 : StateUpdate :=
  { id := "u6", payload := .messageAdd messageM1, expectedVersion := 3
    sourcePanel := "messages", timestamp := 0 }

/-- First `SessionDeleted{"a"}` against `stateAlpha`. -/
def delAlphaOne : StateUpdate :=
  { id := "u7", payload := .sessionDelete "a", expectedVersion := 3
    sourcePanel := "sessions", timestamp := 4 }

/-- Second `SessionDeleted{"a"}`, against the state `delAlphaOne` leaves. -/
def delAlphaTwo : StateUpdate :=
  { id := "u8", payload := .sessionDelete "a", expectedVersion := 5
    sourcePanel := "sessions", timestamp := 5 }

/-- First `MessagesCleared{"a"}` against `stateAlpha`. -/
def clearAlphaOne : StateUpdate :=
  { id := "u12", payload := .messagesClear "a", expectedVersion := 3
    sourcePanel := "messages", timestamp := 4 }

/-- Second `MessagesCleared{"a"}`, against the state `clearAlphaOne`
leaves. -/
def clearAlphaTwo : StateUpdate :=
  { id := "u13", payload := .messagesClear "a", expectedVersion := 4
    sourcePanel := "messages", timestamp := 5 }

/-- An update whose expected version matches no fresh state: exercises the
conflict path. -/
def conflictUpdate : StateUpdate :=
  { id := "u9", payload := .themeChange "dark", expectedVersion := 42
    sourcePanel := "controller", timestamp := 6 }

/-- `UIActionTriggered` against the initial version. -/
def uiActionUpdate : StateUpdate :=
  { id := "u10", payload := .uiAction "refresh", expectedVersion := 1
    sourcePanel := "controller", timestamp := 7 }

/-- `MessageUpdated{m1, content:"", status:"completed", parts:nil}` against
`stateM1`. -/
def updateM1 : StateUpdate :=
  { id := "u11", payload := .messageUpdate "m1" "" "completed" none
    expectedVersion := 2, sourcePanel := "messages", timestamp := 8 }

/-- A well-formed metadata header. -/
def metaOK : StateMetadata := { version := "1.0", timestamp := 5, checksum := "" }

/-- A decodable state that fails `validateState` (non-positive version). -/
def invalidState : SharedApplicationState :=
  { NewSharedApplicationState 5 with
      version := { version := 0, timestamp := 5, source := "init" } }

/-- A decodable state that passes `validateState`. -/
def validFixture : SharedApplicationState := NewSharedApplicationState 7

/-- A main state file whose header verifies and whose state decodes but
fails validation. -/
def mainBad : DiskFile := { header := some metaOK, decoded := some invalidState }

/-- A backup file that decodes and validates. -/
def backupGood : DiskFile := { header := some metaOK, decoded := some validFixture }

/-! ## General lemmas about the embedding -/

theorem stateContent_bumpMeta (s : SharedApplicationState) (now : Nat) :
    stateContent (s.bumpMeta now) = stateContent s := rfl

theorem innerVersionBump_nonneg (s : SharedApplicationState) (p : UpdatePayload) :
    0 ≤ innerVersionBump s p := by
  cases p <;> simp only [innerVersionBump] <;> omega

theorem applyPayload_version (s : SharedApplicationState) (p : UpdatePayload)
    (now : Nat) :
    (applyPayload s p now).version.version = s.version.version + innerVersionBump s p := by
  cases p with
  | sessionAdd session =>
    simp only [applyPayload, innerVersionBump, SharedApplicationState.AddSession]
    cases SharedApplicationState.replaceFirstSession s.sessions session <;>
      simp [SharedApplicationState.bumpMeta]
  | sessionChange sessionID =>
    simp only [applyPayload, innerVersionBump, SharedApplicationState.SetCurrentSession]
    rcases Bool.eq_false_or_eq_true
        (s.sessions.any (fun sess => sess.id = sessionID)) with h | h <;>
      simp [h, SharedApplicationState.bumpMeta]
  | sessionDelete sessionID =>
    simp only [applyPayload, innerVersionBump, SharedApplicationState.RemoveSession]
    cases hr : SharedApplicationState.removeFirstSession s.sessions sessionID <;>
      simp [hr, SharedApplicationState.bumpMeta]
  | messageDelete messageID =>
    simp only [applyPayload, innerVersionBump, deleteFirstMessage]
    cases s.messages.find? (fun m => m.id = messageID) <;> simp
  | _ => simp [applyPayload, innerVersionBump]

/-- The accepted branch of `UpdateWithVersionCheck`, written out. -/
theorem updateWithVersionCheck_eq_of_accepted (resolver : Option ConflictResolver)
    (s : SharedApplicationState) (u : StateUpdate) (now : Nat) (h : accepted s u) :
    UpdateWithVersionCheck resolver s u now =
      { state :=
          { applyPayload s u.payload now with
              version :=
                { version := (applyPayload s u.payload now).version.version + 1
                  timestamp := now
                  source := u.sourcePanel }
              lastUpdate := now
              updateCount := (applyPayload s u.payload now).updateCount + 1 }
        broadcast :=
          some (CreateEventFromUpdate u
            ((applyPayload s u.payload now).version.version + 1) now)
        error := none } := by
  rw [accepted] at h
  simp [UpdateWithVersionCheck, h]

/-! ## C1 -/

/-- C1, counterexample: from the initial state (version 1), the accepted
`SessionAdded` update `addAlpha` raises the version to 3, not 2 —
`AddSession` bumps the version itself before `UpdateWithVersionCheck`'s own
bump, so the claimed increase by exactly 1 fails. -/
theorem C1_counterexample :
    accepted (NewSharedApplicationState 0) addAlpha ∧
    ¬ (UpdateWithVersionCheck none (NewSharedApplicationState 0) addAlpha
        1).state.version.version =
      (NewSharedApplicationState 0).version.version + 1 := by
  decide

/-- C1, amended: every accepted update strictly increases the version, by
exactly `1 + innerVersionBump` — the extra bump being 1 for `SessionAdded`
and for `SessionChanged`/`SessionDeleted` whose target session exists, and 0
otherwise — and afterwards the version record's source equals the update's
source panel id. -/
theorem C1_accepted_version_and_source (resolver : Option ConflictResolver)
    (s : SharedApplicationState) (u : StateUpdate) (now : Nat)
    (h : accepted s u) :
    (UpdateWithVersionCheck resolver s u now).state.version.version =
      s.version.version + 1 + innerVersionBump s u.payload ∧
    s.version.version <
      (UpdateWithVersionCheck resolver s u now).state.version.version ∧
    (UpdateWithVersionCheck resolver s u now).state.version.source =
      u.sourcePanel := by
  rw [updateWithVersionCheck_eq_of_accepted resolver s u now h]
  have hv := applyPayload_version s u.payload now
  have hb := innerVersionBump_nonneg s u.payload
  refine ⟨?_, ?_, rfl⟩ <;> simp only [] <;> omega

/-- C1, witness: the amended statement evaluated on the accepted
`SessionAdded` update `addAlpha` from the initial state. -/
theorem C1_witness :
    accepted (NewSharedApplicationState 0) addAlpha ∧
    ((UpdateWithVersionCheck none (NewSharedApplicationState 0) addAlpha
        1).state.version.version =
      (NewSharedApplicationState 0).version.version + 1 +
        innerVersionBump (NewSharedApplicationState 0) addAlpha.payload ∧
     (NewSharedApplicationState 0).version.version <
      (UpdateWithVersionCheck none (NewSharedApplicationState 0) addAlpha
        1).state.version.version ∧
     (UpdateWithVersionCheck none (NewSharedApplicationState 0) addAlpha
        1).state.version.source = addAlpha.sourcePanel) :=
  ⟨by decide,
   C1_accepted_version_and_source none (NewSharedApplicationState 0) addAlpha 1
     (by decide)⟩

/-! ## C2 -/

/-- C2, counterexample: with `stateAlphaSelected` (sessions `[a]`, current
session `a`), the accepted `SessionChanged{"b"}` update succeeds but leaves
the current-session id at `"a"` rather than clearing it to `""`. -/
theorem C2_counterexample :
    accepted stateAlphaSelected selectBeta ∧
    stateAlphaSelected.sessions.all (fun sess => sess.id ≠ "b") = true ∧
    (UpdateWithVersionCheck none stateAlphaSelected selectBeta 4).error = none ∧
    ¬ (UpdateWithVersionCheck none stateAlphaSelected selectBeta
        4).state.currentSessionID = "" := by
  decide

/-- C2, amended: an accepted `SessionChanged` update whose payload session id
matches no existing session does not fail, and leaves the current-session id
unchanged (`SetCurrentSession` only writes it when the session exists). -/
theorem C2_unknown_session_keeps_selection (resolver : Option ConflictResolver)
    (s : SharedApplicationState) (u : StateUpdate) (now : Nat) (sid : String)
    (hp : u.payload = .sessionChange sid)
    (h : accepted s u)
    (hmiss : ∀ sess ∈ s.sessions, sess.id ≠ sid) :
    (UpdateWithVersionCheck resolver s u now).error = none ∧
    (UpdateWithVersionCheck resolver s u now).state.currentSessionID =
      s.currentSessionID := by
  rw [updateWithVersionCheck_eq_of_accepted resolver s u now h]
  refine ⟨rfl, ?_⟩
  have hany : s.sessions.any (fun sess => sess.id = sid) = false := by
    simp only [List.any_eq_false, decide_eq_true_eq]
    exact hmiss
  simp [hp, applyPayload, SharedApplicationState.SetCurrentSession, hany]

/-- C2, witness: the amended statement evaluated on `stateAlphaSelected` and
`selectBeta`. -/
theorem C2_witness :
    accepted stateAlphaSelected selectBeta ∧
    ((UpdateWithVersionCheck none stateAlphaSelected selectBeta 4).error = none ∧
     (UpdateWithVersionCheck none stateAlphaSelected selectBeta
        4).state.currentSessionID = stateAlphaSelected.currentSessionID) :=
  ⟨by decide,
   C2_unknown_session_keeps_selection none stateAlphaSelected selectBeta 4 "b"
     rfl (by decide) (by decide)⟩

/-! ## C3 -/

/-- When no session carries the given id, the MessageAdded count loop leaves
the session list untouched. -/
theorem incFirstSessionCount_of_absent (l : List SessionInfo) (sid : String)
    (h : ∀ sess ∈ l, sess.id ≠ sid) :
    incFirstSessionCount l sid = l := by
  induction l with
  | nil => rfl
  | cons head tail ih =>
    have hhead : head.id ≠ sid := h head (List.mem_cons_self head tail)
    simp only [incFirstSessionCount, if_neg hhead, List.cons.injEq, true_and]
    exact ih fun sess hs => h sess (List.mem_cons_of_mem head hs)

/-- C3, counterexample: from the initial state, which has no sessions, the
`MessageAdded` update `addM1` (session id `s1`) is accepted and appends a
message whose session id matches no known session. -/
theorem C3_counterexample :
    accepted (NewSharedApplicationState 0) addM1 ∧
    (UpdateWithVersionCheck none (NewSharedApplicationState 0) addM1 1).error =
      none ∧
    ((UpdateWithVersionCheck none (NewSharedApplicationState 0) addM1
        1).state.messages.all fun m =>
      (UpdateWithVersionCheck none (NewSharedApplicationState 0) addM1
        1).state.sessions.any fun sess => sess.id = m.sessionID) = false := by
  decide

/-- C3, amended: the coordinator accepts `MessageAdded` without checking the
message's session id: the message is appended unconditionally, and when no
session matches the id, the session list (and hence every message count) is
left untouched — so the stated invariant is not enforced. -/
theorem C3_message_add_unchecked (resolver : Option ConflictResolver)
    (s : SharedApplicationState) (u : StateUpdate) (now : Nat) (m : MessageInfo)
    (hp : u.payload = .messageAdd m)
    (h : accepted s u) :
    (UpdateWithVersionCheck resolver s u now).error = none ∧
    (UpdateWithVersionCheck resolver s u now).state.messages =
      s.messages ++ [m] ∧
    ((∀ sess ∈ s.sessions, sess.id ≠ m.sessionID) →
      (UpdateWithVersionCheck resolver s u now).state.sessions = s.sessions) := by
  rw [updateWithVersionCheck_eq_of_accepted resolver s u now h]
  refine ⟨rfl, by simp [hp, applyPayload], fun hmiss => ?_⟩
  simp [hp, applyPayload, incFirstSessionCount_of_absent s.sessions m.sessionID hmiss]

/-- C3, witness: the amended statement evaluated on the initial state and
`addM1`. -/
theorem C3_witness :
    accepted (NewSharedApplicationState 0) addM1 ∧
    ((UpdateWithVersionCheck none (NewSharedApplicationState 0) addM1 1).error =
        none ∧
     (UpdateWithVersionCheck none (NewSharedApplicationState 0) addM1
        1).state.messages = (NewSharedApplicationState 0).messages ++ [messageM1] ∧
     ((∀ sess ∈ (NewSharedApplicationState 0).sessions,
        sess.id ≠ messageM1.sessionID) →
      (UpdateWithVersionCheck none (NewSharedApplicationState 0) addM1
        1).state.sessions = (NewSharedApplicationState 0).sessions)) :=
  ⟨by decide,
   C3_message_add_unchecked none (NewSharedApplicationState 0) addM1 1 messageM1
     rfl (by decide)⟩

/-! ## C4 -/

/-- The backup walk returns exactly the first present backup whose state
document decodes and validates. -/
theorem loadFromBackup_eq_firstValidBackup (backups : List (Option DiskFile)) :
    loadFromBackup backups =
      match firstValidBackup backups with
      | some st => .ok st
      | none => .error .backupNotFound := by
  induction backups with
  | nil => rfl
  | cons head tail ih =>
    cases head with
    | none => simpa [loadFromBackup, firstValidBackup, List.findSome?] using ih
    | some f =>
      cases hd : f.decoded with
      | none => simpa [loadFromBackup, firstValidBackup, List.findSome?, hd] using ih
      | some st =>
        cases hv : validateState st with
        | none => simp [loadFromBackup, firstValidBackup, List.findSome?, hd, hv]
        | some e =>
          simpa [loadFromBackup, firstValidBackup, List.findSome?, hd, hv] using ih

/-- C4, counterexample: a main file whose header verifies and whose state
decodes but fails validation is not recovered from the (valid, present)
backup: `LoadStateAtomic` returns the validation error while the backup walk
alone would succeed. -/
theorem C4_counterexample :
    (validateState invalidState).isSome = true ∧
    loadFromBackup [some backupGood] = .ok validFixture ∧
    LoadStateAtomic (some mainBad) [some backupGood] =
      .error (.validationFailed
        { field := "version", message := "must be positive" }) := by
  decide

/-- C4, amended: the load path opens the state file and verifies the
metadata header; backup fallback is triggered exactly by header-verification
failure or by a state-decode failure of the main file, while a main state
that decodes but fails validation is returned as a validation error without
consulting backups; the backup chain (unsuffixed first, then `.1`, `.2`, …)
yields the first backup that decodes and validates. -/
theorem C4_load_fallback_discipline (f : DiskFile)
    (backups : List (Option DiskFile)) (st : SharedApplicationState) :
    ((verifyFileIntegrity f = false ∨ f.decoded = none) →
      LoadStateAtomic (some f) backups = loadFromBackup backups) ∧
    (∀ e, verifyFileIntegrity f = true → f.decoded = some st →
      validateState st = some e →
      LoadStateAtomic (some f) backups = .error (.validationFailed e)) ∧
    (verifyFileIntegrity f = true → f.decoded = some st →
      validateState st = none →
      LoadStateAtomic (some f) backups = .ok st) ∧
    (loadFromBackup backups =
      match firstValidBackup backups with
      | some good => .ok good
      | none => .error .backupNotFound) := by
  refine ⟨?_, ?_, ?_, loadFromBackup_eq_firstValidBackup backups⟩
  · rintro (hvf | hdec)
    · simp [LoadStateAtomic, hvf]
    · cases hvf : verifyFileIntegrity f <;> simp [LoadStateAtomic, hvf, hdec]
  · intro e hvf hdec hval
    simp [LoadStateAtomic, hvf, hdec, hval]
  · intro hvf hdec hval
    simp [LoadStateAtomic, hvf, hdec, hval]

/-- C4, witness: the amended statement evaluated on `mainBad` and the
single-entry backup chain `[backupGood]`. -/
theorem C4_witness :
    verifyFileIntegrity mainBad = true ∧
    mainBad.decoded = some invalidState ∧
    validateState invalidState =
      some { field := "version", message := "must be positive" } ∧
    LoadStateAtomic (some mainBad) [some backupGood] =
      .error (.validationFailed
        { field := "version", message := "must be positive" }) :=
  ⟨by decide, by decide, by decide,
   (C4_load_fallback_discipline mainBad [some backupGood] invalidState).2.1
     { field := "version", message := "must be positive" }
     (by decide) (by decide) (by decide)⟩

/-! ## C5 -/

/-- C5: on a version mismatch the update is routed to the conflict resolver;
the call succeeds exactly when the resolver succeeds (taking the resolver's
resulting state), and when the resolver is absent or does not succeed the
call returns the version-conflict error with the state untouched and no
event broadcast. -/
theorem C5_conflict_path (resolver : Option ConflictResolver)
    (s : SharedApplicationState) (u : StateUpdate) (now : Nat)
    (h : s.version.version ≠ u.expectedVersion) :
    ((UpdateWithVersionCheck resolver s u now).error = none ↔
      (resolver.bind fun r => r s u).isSome = true) ∧
    (∀ r s2, resolver = some r → r s u = some s2 →
      UpdateWithVersionCheck resolver s u now =
        { state := s2, broadcast := none, error := none }) ∧
    ((resolver.bind fun r => r s u) = none →
      UpdateWithVersionCheck resolver s u now =
        { state := s
          broadcast := none
          error := some (.versionConflict u.expectedVersion s.version.version) }) := by
  cases resolver with
  | none => simp [UpdateWithVersionCheck, h]
  | some r =>
    cases hr : r s u with
    | none =>
      refine ⟨?_, ?_, ?_⟩ <;> simp [UpdateWithVersionCheck, h, hr]
      intro r2 s2 hr2
      subst hr2
      simp [hr]
    | some s2 =>
      refine ⟨?_, ?_, ?_⟩ <;>
        simp [UpdateWithVersionCheck, h, hr, Option.bind]
      intro r2 w heq hw
      subst heq
      rw [hr] at hw
      exact Option.some.inj hw

/-- C5, witness: with no resolver configured and `conflictUpdate` (expected
version 42 against the initial version 1), the call returns the
version-conflict error, leaves the state untouched and broadcasts nothing. -/
theorem C5_witness :
    (NewSharedApplicationState 0).version.version ≠
      conflictUpdate.expectedVersion ∧
    UpdateWithVersionCheck none (NewSharedApplicationState 0) conflictUpdate 9 =
      { state := NewSharedApplicationState 0
        broadcast := none
        error := some (.versionConflict conflictUpdate.expectedVersion
          (NewSharedApplicationState 0).version.version) } :=
  ⟨by decide,
   (C5_conflict_path none (NewSharedApplicationState 0) conflictUpdate 9
      (by decide)).2.2 rfl⟩

/-! ## C6 -/

/-- The MessageAdded count loop bumps exactly the first session found under
the same id that `find?` returns. -/
theorem find_incFirstSessionCount (l : List SessionInfo) (sid : String) :
    (incFirstSessionCount l sid).find? (fun x => x.id = sid) =
      (l.find? (fun x => x.id = sid)).map
        (fun t => { t with messageCount := t.messageCount + 1 }) := by
  induction l with
  | nil => rfl
  | cons head tail ih =>
    by_cases hh : head.id = sid
    · have hb : ({ head with messageCount := head.messageCount + 1 } :
          SessionInfo).id = sid := hh
      simp [incFirstSessionCount, hh, List.find?_cons, hb]
    · simp [incFirstSessionCount, hh, List.find?_cons, ih]

/-- Appending a message adds one to the count of its session id. -/
theorem countMessages_append_one (l : List MessageInfo) (m : MessageInfo) :
    countMessages (l ++ [m]) m.sessionID = countMessages l m.sessionID + 1 := by
  simp [countMessages, List.filter_append]

/-- C6: an accepted `MessageAdded` whose session exists appends the message,
bumps that session's message count, re-establishes `message_count = number
of messages with that session id` (given it held before), and points the
coordinator's current message at a copy of the new message. -/
theorem C6_message_add_count_and_pointer (resolver : Option ConflictResolver)
    (s : SharedApplicationState) (u : StateUpdate) (now : Nat)
    (m : MessageInfo) (sess : SessionInfo)
    (hp : u.payload = .messageAdd m)
    (h : accepted s u)
    (hfind : s.sessions.find? (fun x => x.id = m.sessionID) = some sess)
    (hcount : sess.messageCount = countMessages s.messages m.sessionID) :
    (UpdateWithVersionCheck resolver s u now).state.messages =
      s.messages ++ [m] ∧
    (UpdateWithVersionCheck resolver s u now).state.sessions.find?
        (fun x => x.id = m.sessionID) =
      some { sess with messageCount := sess.messageCount + 1 } ∧
    sess.messageCount + 1 =
      countMessages (UpdateWithVersionCheck resolver s u now).state.messages
        m.sessionID ∧
    (UpdateWithVersionCheck resolver s u now).state.currentMessage = some m := by
  rw [updateWithVersionCheck_eq_of_accepted resolver s u now h]
  refine ⟨by simp [hp, applyPayload], ?_, ?_, by simp [hp, applyPayload]⟩
  · simp [hp, applyPayload, find_incFirstSessionCount, hfind]
  · simp only [hp, applyPayload]
    rw [countMessages_append_one s.messages m, hcount]

/-- C6, witness: the statement evaluated on `stateS1` (one session `s1`,
count 0, no messages) and the accepted `MessageAdded{messageM1}` update. -/
theorem C6_witness :
    accepted stateS1 addM1toS1 ∧
    stateS1.sessions.find? (fun x => x.id = messageM1.sessionID) =
      some { sessionS1 with updatedAt := 0 } ∧
    ((UpdateWithVersionCheck none stateS1 addM1toS1 2).state.messages =
      stateS1.messages ++ [messageM1] ∧
     (UpdateWithVersionCheck none stateS1 addM1toS1 2).state.sessions.find?
        (fun x => x.id = messageM1.sessionID) =
      some { sessionS1 with messageCount := sessionS1.messageCount + 1 } ∧
     sessionS1.messageCount + 1 =
      countMessages (UpdateWithVersionCheck none stateS1 addM1toS1
        2).state.messages messageM1.sessionID ∧
     (UpdateWithVersionCheck none stateS1 addM1toS1 2).state.currentMessage =
      some messageM1) :=
  ⟨by decide, by decide,
   C6_message_add_count_and_pointer none stateS1 addM1toS1 2 messageM1 sessionS1
     rfl (by decide) (by decide) (by decide)⟩

/-! ## C7 -/

/-- `stateContent` of an accepted call is the content of the applied
payload: the final version/metadata stamp touches no content field. -/
theorem stateContent_accepted (resolver : Option ConflictResolver)
    (s : SharedApplicationState) (u : StateUpdate) (now : Nat)
    (h : accepted s u) :
    stateContent (UpdateWithVersionCheck resolver s u now).state =
      stateContent (applyPayload s u.payload now) := by
  rw [updateWithVersionCheck_eq_of_accepted resolver s u now h]
  rfl

/-- Removing the first session under an id removes exactly one session with
that id. -/
theorem countP_removeFirstSession (l : List SessionInfo) (X : String)
    (l2 : List SessionInfo)
    (h : SharedApplicationState.removeFirstSession l X = some l2) :
    l.countP (fun x => x.id = X) = l2.countP (fun x => x.id = X) + 1 := by
  induction l generalizing l2 with
  | nil => simp [SharedApplicationState.removeFirstSession] at h
  | cons head tail ih =>
    by_cases hh : head.id = X
    · simp only [SharedApplicationState.removeFirstSession, if_pos hh,
        Option.some.injEq] at h
      subst h
      simp [List.countP_cons, hh]
    · simp only [SharedApplicationState.removeFirstSession, if_neg hh,
        Option.map_eq_some'] at h
      obtain ⟨l3, h3, rfl⟩ := h
      simp [List.countP_cons, hh, ih l3 h3]

/-- The first-removal walk finds nothing exactly when no session carries the
id. -/
theorem removeFirstSession_eq_none_iff (l : List SessionInfo) (X : String) :
    SharedApplicationState.removeFirstSession l X = none ↔
      l.countP (fun x => x.id = X) = 0 := by
  induction l with
  | nil => simp [SharedApplicationState.removeFirstSession]
  | cons head tail ih =>
    by_cases hh : head.id = X
    · simp [SharedApplicationState.removeFirstSession, hh, List.countP_cons]
    · simp [SharedApplicationState.removeFirstSession, hh, List.countP_cons, ih]

/-- A Boolean filter is idempotent. -/
theorem filter_idem {α : Type} (p : α → Bool) (l : List α) :
    (l.filter p).filter p = l.filter p := by
  induction l with
  | nil => rfl
  | cons a l ih =>
    by_cases h : p a <;> simp [List.filter_cons, h, ih]

/-- Zeroing the first matching session's count twice equals doing it once. -/
theorem zeroFirstSessionCount_idem (l : List SessionInfo) (sid : String) :
    zeroFirstSessionCount (zeroFirstSessionCount l sid) sid =
      zeroFirstSessionCount l sid := by
  induction l with
  | nil => rfl
  | cons head tail ih =>
    by_cases hh : head.id = sid
    · simp [zeroFirstSessionCount, hh]
    · simp [zeroFirstSessionCount, hh, ih]

/-- C7, counterexample: from `stateAlpha`, the accepted `SessionDeleted{"a"}`
applied twice (each accepted at its then-current version) does not yield the
same state as applying it once — the second call still bumps the version,
timestamp and update counter. -/
theorem C7_counterexample :
    accepted stateAlpha delAlphaOne ∧
    accepted (UpdateWithVersionCheck none stateAlpha delAlphaOne 2).state
      delAlphaTwo ∧
    ¬ (UpdateWithVersionCheck none
        (UpdateWithVersionCheck none stateAlpha delAlphaOne 2).state
        delAlphaTwo 3).state =
      (UpdateWithVersionCheck none stateAlpha delAlphaOne 2).state := by
  decide

/-- C7, amended: in states whose session list carries at most one session
with the targeted id (the documented invariant), two accepted
`SessionDeleted{X}` updates leave the same state as one on every field
except the version record, last-update timestamp and update counter, and
likewise for two accepted `MessagesCleared{S}` updates. -/
theorem C7_idempotent_up_to_version (resolver : Option ConflictResolver)
    (s : SharedApplicationState) (u1 u2 v1 v2 : StateUpdate) (X S : String)
    (n1 n2 n3 n4 : Nat)
    (hcnt : s.sessions.countP (fun x => x.id = X) ≤ 1)
    (hu1 : u1.payload = .sessionDelete X) (hu2 : u2.payload = .sessionDelete X)
    (ha1 : accepted s u1)
    (ha2 : accepted (UpdateWithVersionCheck resolver s u1 n1).state u2)
    (hv1 : v1.payload = .messagesClear S) (hv2 : v2.payload = .messagesClear S)
    (hb1 : accepted s v1)
    (hb2 : accepted (UpdateWithVersionCheck resolver s v1 n3).state v2) :
    stateContent (UpdateWithVersionCheck resolver
        (UpdateWithVersionCheck resolver s u1 n1).state u2 n2).state =
      stateContent (UpdateWithVersionCheck resolver s u1 n1).state ∧
    stateContent (UpdateWithVersionCheck resolver
        (UpdateWithVersionCheck resolver s v1 n3).state v2 n4).state =
      stateContent (UpdateWithVersionCheck resolver s v1 n3).state := by
  constructor
  · rw [stateContent_accepted resolver _ u2 n2 ha2, hu2]
    have hsess : (UpdateWithVersionCheck resolver s u1 n1).state.sessions =
        (applyPayload s u1.payload n1).sessions := by
      rw [updateWithVersionCheck_eq_of_accepted resolver s u1 n1 ha1]
    have hzero : ((UpdateWithVersionCheck resolver s u1
        n1).state.sessions.countP (fun x => x.id = X)) = 0 := by
      rw [hsess, hu1]
      simp only [applyPayload, SharedApplicationState.RemoveSession]
      cases hr : SharedApplicationState.removeFirstSession s.sessions X with
      | some l2 =>
        have hc := countP_removeFirstSession s.sessions X l2 hr
        simp only [SharedApplicationState.bumpMeta]
        omega
      | none =>
        exact (removeFirstSession_eq_none_iff s.sessions X).mp hr
    have hnone := (removeFirstSession_eq_none_iff _ X).mpr hzero
    simp [applyPayload, SharedApplicationState.RemoveSession, hnone]
  · rw [stateContent_accepted resolver _ v2 n4 hb2, hv2]
    have hstate : (UpdateWithVersionCheck resolver s v1 n3).state.messages =
        s.messages.filter (fun m => m.sessionID ≠ S) ∧
        (UpdateWithVersionCheck resolver s v1 n3).state.sessions =
        zeroFirstSessionCount s.sessions S := by
      rw [updateWithVersionCheck_eq_of_accepted resolver s v1 n3 hb1, hv1]
      exact ⟨rfl, rfl⟩
    simp only [applyPayload, stateContent, hstate.1, hstate.2,
      filter_idem, zeroFirstSessionCount_idem]

/-- C7, witness: the amended statement evaluated on `stateAlpha` with the
accepted delete pair `delAlphaOne`/`delAlphaTwo` and the accepted clear pair
`clearAlphaOne`/`clearAlphaTwo`. -/
theorem C7_witness :
    stateAlpha.sessions.countP (fun x => x.id = "a") ≤ 1 ∧
    (stateContent (UpdateWithVersionCheck none
        (UpdateWithVersionCheck none stateAlpha delAlphaOne 2).state
        delAlphaTwo 3).state =
      stateContent (UpdateWithVersionCheck none stateAlpha delAlphaOne
        2).state ∧
     stateContent (UpdateWithVersionCheck none
        (UpdateWithVersionCheck none stateAlpha clearAlphaOne 2).state
        clearAlphaTwo 3).state =
      stateContent (UpdateWithVersionCheck none stateAlpha clearAlphaOne
        2).state) :=
  ⟨by decide,
   C7_idempotent_up_to_version none stateAlpha delAlphaOne delAlphaTwo
     clearAlphaOne clearAlphaTwo "a" "a" 2 3 2 3 (by decide) rfl rfl
     (by decide) (by decide) rfl rfl (by decide) (by decide)⟩

/-! ## C8 -/

/-- C8: an accepted `UIActionTriggered` update leaves every content field —
sessions, current-session id, messages, current message, input, theme,
provider, model, agent and the agent-model map — unchanged; only the version
record, update counter and last-update timestamp move, and an event is still
broadcast. -/
theorem C8_ui_action_frame (resolver : Option ConflictResolver)
    (s : SharedApplicationState) (u : StateUpdate) (now : Nat) (a : String)
    (hp : u.payload = .uiAction a)
    (h : accepted s u) :
    stateContent (UpdateWithVersionCheck resolver s u now).state =
      stateContent s ∧
    (UpdateWithVersionCheck resolver s u now).state.version.version =
      s.version.version + 1 ∧
    (UpdateWithVersionCheck resolver s u now).state.version.source =
      u.sourcePanel ∧
    (UpdateWithVersionCheck resolver s u now).state.version.timestamp = now ∧
    (UpdateWithVersionCheck resolver s u now).state.updateCount =
      s.updateCount + 1 ∧
    (UpdateWithVersionCheck resolver s u now).state.lastUpdate = now ∧
    (UpdateWithVersionCheck resolver s u now).broadcast =
      some (CreateEventFromUpdate u (s.version.version + 1) now) := by
  have happ : applyPayload s u.payload now = s := by
    rw [hp]
    rfl
  rw [updateWithVersionCheck_eq_of_accepted resolver s u now h, happ]
  exact ⟨rfl, rfl, rfl, rfl, rfl, rfl, rfl⟩

/-- C8, witness: the statement evaluated on the initial state and the
accepted `uiActionUpdate`. -/
theorem C8_witness :
    accepted (NewSharedApplicationState 0) uiActionUpdate ∧
    (stateContent (UpdateWithVersionCheck none (NewSharedApplicationState 0)
        uiActionUpdate 7).state = stateContent (NewSharedApplicationState 0) ∧
     (UpdateWithVersionCheck none (NewSharedApplicationState 0) uiActionUpdate
        7).state.version.version = (NewSharedApplicationState 0).version.version
          + 1 ∧
     (UpdateWithVersionCheck none (NewSharedApplicationState 0) uiActionUpdate
        7).state.version.source = uiActionUpdate.sourcePanel ∧
     (UpdateWithVersionCheck none (NewSharedApplicationState 0) uiActionUpdate
        7).state.version.timestamp = 7 ∧
     (UpdateWithVersionCheck none (NewSharedApplicationState 0) uiActionUpdate
        7).state.updateCount = (NewSharedApplicationState 0).updateCount + 1 ∧
     (UpdateWithVersionCheck none (NewSharedApplicationState 0) uiActionUpdate
        7).state.lastUpdate = 7 ∧
     (UpdateWithVersionCheck none (NewSharedApplicationState 0) uiActionUpdate
        7).broadcast = some (CreateEventFromUpdate uiActionUpdate
          ((NewSharedApplicationState 0).version.version + 1) 7)) :=
  ⟨by decide,
   C8_ui_action_frame none (NewSharedApplicationState 0) uiActionUpdate 7
     "refresh" rfl (by decide)⟩

/-! ## C9 -/

/-- Everything `replaceFirstSession` guarantees when it fires: same length,
same id sequence, the payload present, every element either old or the
payload, and every old element with a different id retained. -/
theorem replaceFirstSession_spec (l : List SessionInfo) (session : SessionInfo)
    (l2 : List SessionInfo)
    (h : SharedApplicationState.replaceFirstSession l session = some l2) :
    l2.length = l.length ∧
    l2.map SessionInfo.id = l.map SessionInfo.id ∧
    session ∈ l2 ∧
    (∀ t ∈ l2, t ∈ l ∨ t = session) ∧
    (∀ t ∈ l, t.id ≠ session.id → t ∈ l2) := by
  induction l generalizing l2 with
  | nil => simp [SharedApplicationState.replaceFirstSession] at h
  | cons head tail ih =>
    by_cases hh : head.id = session.id
    · simp only [SharedApplicationState.replaceFirstSession, if_pos hh,
        Option.some.injEq] at h
      subst h
      refine ⟨by simp, by simp [hh], List.mem_cons_self _ _, ?_, ?_⟩
      · intro t ht
        rcases List.mem_cons.mp ht with rfl | ht
        · exact Or.inr rfl
        · exact Or.inl (List.mem_cons_of_mem _ ht)
      · intro t ht hne
        rcases List.mem_cons.mp ht with rfl | ht
        · exact absurd hh hne
        · exact List.mem_cons_of_mem _ ht
    · simp only [SharedApplicationState.replaceFirstSession, if_neg hh,
        Option.map_eq_some'] at h
      obtain ⟨l3, h3, rfl⟩ := h
      obtain ⟨hlen, hmap, hmem, hsub, hkeep⟩ := ih l3 h3
      refine ⟨by simp [hlen], by simp [hmap], List.mem_cons_of_mem _ hmem,
        ?_, ?_⟩
      · intro t ht
        rcases List.mem_cons.mp ht with rfl | ht
        · exact Or.inl (List.mem_cons_self _ _)
        · rcases hsub t ht with h1 | h1
          · exact Or.inl (List.mem_cons_of_mem _ h1)
          · exact Or.inr h1
      · intro t ht hne
        rcases List.mem_cons.mp ht with rfl | ht
        · exact List.mem_cons_self _ _
        · exact List.mem_cons_of_mem _ (hkeep t ht hne)

/-- When some session already carries the id, `replaceFirstSession`
fires. -/
theorem replaceFirstSession_exists (l : List SessionInfo)
    (session : SessionInfo) (h : ∃ t ∈ l, t.id = session.id) :
    ∃ l2, SharedApplicationState.replaceFirstSession l session = some l2 := by
  induction l with
  | nil => simp at h
  | cons head tail ih =>
    by_cases hh : head.id = session.id
    · exact ⟨session :: tail,
        by simp [SharedApplicationState.replaceFirstSession, hh]⟩
    · obtain ⟨t, ht, hid⟩ := h
      rcases List.mem_cons.mp ht with rfl | ht
      · exact absurd hid hh
      · obtain ⟨l2, h2⟩ := ih ⟨t, ht, hid⟩
        exact ⟨head :: l2,
          by simp [SharedApplicationState.replaceFirstSession, hh, h2]⟩

/-- C9: when a session with the payload's id already exists, `AddSession`
acts as an in-place upsert: session count unchanged, id order unchanged (so
no duplicate id is introduced), the payload present, every post-state
session either an old record or the payload, and every other-id record
retained. -/
theorem C9_add_session_upsert (s : SharedApplicationState)
    (session : SessionInfo) (now : Nat)
    (h : ∃ t ∈ s.sessions, t.id = session.id) :
    (s.AddSession session now).sessions.length = s.sessions.length ∧
    (s.AddSession session now).sessions.map SessionInfo.id =
      s.sessions.map SessionInfo.id ∧
    session ∈ (s.AddSession session now).sessions ∧
    (∀ t ∈ (s.AddSession session now).sessions, t ∈ s.sessions ∨ t = session) ∧
    (∀ t ∈ s.sessions, t.id ≠ session.id →
      t ∈ (s.AddSession session now).sessions) := by
  obtain ⟨l2, h2⟩ := replaceFirstSession_exists s.sessions session h
  have hspec := replaceFirstSession_spec s.sessions session l2 h2
  have hsess : (s.AddSession session now).sessions = l2 := by
    simp [SharedApplicationState.AddSession, h2, SharedApplicationState.bumpMeta]
  rw [hsess]
  exact hspec

/-- C9, witness: the statement evaluated on `stateAlpha` and the replacement
record `sessionAlphaV2` (same id `a`). -/
theorem C9_witness :
    (∃ t ∈ stateAlpha.sessions, t.id = sessionAlphaV2.id) ∧
    ((stateAlpha.AddSession sessionAlphaV2 4).sessions.length =
      stateAlpha.sessions.length ∧
     (stateAlpha.AddSession sessionAlphaV2 4).sessions.map SessionInfo.id =
      stateAlpha.sessions.map SessionInfo.id ∧
     sessionAlphaV2 ∈ (stateAlpha.AddSession sessionAlphaV2 4).sessions ∧
     (∀ t ∈ (stateAlpha.AddSession sessionAlphaV2 4).sessions,
        t ∈ stateAlpha.sessions ∨ t = sessionAlphaV2) ∧
     (∀ t ∈ stateAlpha.sessions, t.id ≠ sessionAlphaV2.id →
        t ∈ (stateAlpha.AddSession sessionAlphaV2 4).sessions)) :=
  ⟨by decide,
   C9_add_session_upsert stateAlpha sessionAlphaV2 4 (by decide)⟩

/-! ## C10 -/

/-- The MessageUpdated loop rewrites exactly the first message found under
the id that `find?` returns. -/
theorem find_updateFirstMessage (l : List MessageInfo) (mid : String)
    (c st : String) (p : Option (List String)) :
    (updateFirstMessage l mid c st p).find? (fun x => x.id = mid) =
      (l.find? (fun x => x.id = mid)).map
        (fun m => applyMessageUpdate m c st p) := by
  induction l with
  | nil => rfl
  | cons head tail ih =>
    by_cases hh : head.id = mid
    · have hb : (applyMessageUpdate head c st p).id = mid := hh
      simp [updateFirstMessage, hh, List.find?_cons, hb]
    · simp [updateFirstMessage, hh, List.find?_cons, ih]

/-- C10: for an accepted `MessageUpdated` targeting an existing message, the
stored message becomes `applyMessageUpdate` of the old one, where an empty
content leaves content unchanged, an empty status leaves status unchanged, a
nil parts field leaves parts unchanged — hence the update can leave content
or status empty only when it already was. -/
theorem C10_message_update_empty_fields (resolver : Option ConflictResolver)
    (s : SharedApplicationState) (u : StateUpdate) (now : Nat) (mid : String)
    (c st : String) (p : Option (List String)) (m : MessageInfo)
    (hp : u.payload = .messageUpdate mid c st p)
    (h : accepted s u)
    (hfind : s.messages.find? (fun x => x.id = mid) = some m) :
    (UpdateWithVersionCheck resolver s u now).state.messages.find?
        (fun x => x.id = mid) = some (applyMessageUpdate m c st p) ∧
    (c = "" → (applyMessageUpdate m c st p).content = m.content) ∧
    (st = "" → (applyMessageUpdate m c st p).status = m.status) ∧
    (p = none → (applyMessageUpdate m c st p).parts = m.parts) ∧
    ((applyMessageUpdate m c st p).content = "" → m.content = "") ∧
    ((applyMessageUpdate m c st p).status = "" → m.status = "") := by
  refine ⟨?_, ?_, ?_, ?_, ?_, ?_⟩
  · rw [updateWithVersionCheck_eq_of_accepted resolver s u now h]
    simp [hp, applyPayload, find_updateFirstMessage, hfind]
  · intro hc
    simp [applyMessageUpdate, hc]
  · intro hs
    simp [applyMessageUpdate, hs]
  · intro hpn
    simp [applyMessageUpdate, hpn]
  · intro hc
    by_cases hcc : c = ""
    · simp [applyMessageUpdate, hcc] at hc
      exact hc
    · simp [applyMessageUpdate, hcc] at hc
  · intro hs
    by_cases hss : st = ""
    · simp [applyMessageUpdate, hss] at hs
      exact hs
    · simp [applyMessageUpdate, hss] at hs

/-- C10, witness: the statement evaluated on `stateM1` and `updateM1`
(empty content, status `completed`, nil parts). -/
theorem C10_witness :
    accepted stateM1 updateM1 ∧
    stateM1.messages.find? (fun x => x.id = "m1") = some messageM1 ∧
    ((UpdateWithVersionCheck none stateM1 updateM1 8).state.messages.find?
        (fun x => x.id = "m1") =
      some (applyMessageUpdate messageM1 "" "completed" none) ∧
     ("" = "" → (applyMessageUpdate messageM1 "" "completed" none).content =
        messageM1.content) ∧
     ("completed" = "" →
        (applyMessageUpdate messageM1 "" "completed" none).status =
        messageM1.status) ∧
     ((none : Option (List String)) = none →
        (applyMessageUpdate messageM1 "" "completed" none).parts =
        messageM1.parts) ∧
     ((applyMessageUpdate messageM1 "" "completed" none).content = "" →
        messageM1.content = "") ∧
     ((applyMessageUpdate messageM1 "" "completed" none).status = "" →
        messageM1.status = "")) :=
  ⟨by decide, by decide,
   C10_message_update_empty_fields none stateM1 updateM1 8 "m1" "" "completed"
     none messageM1 rfl (by decide) (by decide)⟩

end TmuxCoder
